import Mathlib

/-
Verification of the libchips chip-reader (src/libchips/src/chips.c) against
its specification.  The C source is shallowly embedded below: pure helpers
become Lean functions, the session globals become a `SessionState` record
threaded explicitly, the unbounded worker/consumer loops become fuel-indexed
recursions, and the raster backend (GDAL) is abstracted by Boolean oracles
for coverage queries, trylock outcomes and read success.  `assert(0)` and
C undefined behaviour (division by zero) are modelled by `Option` results,
with `none` standing for abnormal termination.
-/

set_option autoImplicit false

namespace Libchips

/-! GDAL data-type codes, with the numeric values of the `GDALDataType`
enumeration from gdal.h (the C code stores them in plain `int` globals,
initialised to `-1`). -/

def GDT_Unknown : Int := 0

def GDT_Byte : Int := 1

def GDT_UInt16 : Int := 2

def GDT_Int16 : Int := 3

def GDT_UInt32 : Int := 4

def GDT_Int32 : Int := 5

def GDT_Float32 : Int := 6

def GDT_Float64 : Int := 7

def GDT_CInt16 : Int := 8

def GDT_CInt32 : Int := 9

def GDT_CFloat32 : Int := 10

def GDT_CFloat64 : Int := 11

/-- Embedding of `word_size` (chips.c lines 60-89).  The C switch returns the
byte width of each supported data type; the `default` branch executes
`assert(0)`, modelled here as `none` (the function does not return
normally). -/
def word_size (dt : Int) : Option Nat :=
  if dt = GDT_Byte then some 1
  else if dt = GDT_UInt16 then some 2
  else if dt = GDT_Int16 then some 2
  else if dt = GDT_UInt32 then some 4
  else if dt = GDT_Int32 then some 4
  else if dt = GDT_Float32 then some 4
  else if dt = GDT_Float64 then some 8
  else if dt = GDT_CInt16 then some 4
  else if dt = GDT_CInt32 then some 8
  else if dt = GDT_CFloat32 then some 8
  else if dt = GDT_CFloat64 then some 16
  else none

/-- The list of data-type codes accepted by the `word_size` switch. -/
def supportedDataTypes : List Int :=
  [GDT_Byte, GDT_UInt16, GDT_Int16, GDT_UInt32, GDT_Int32, GDT_Float32,
   GDT_Float64, GDT_CInt16, GDT_CInt32, GDT_CFloat32, GDT_CFloat64]

/-! Window-sampling predicates of the reader loop (chips.c lines 50-52).
`x_offset`, `y_offset` are chip-grid coordinates at the point where these
macros are evaluated inside the sampling loops (lines 215 and 226). -/

/-- Embedding of the `BAD_TRAINING_WINDOW` macro (chips.c line 51). -/
def BAD_TRAINING_WINDOW (x_offset y_offset : Nat) : Bool :=
  (x_offset + y_offset) % 7 == 0

/-- Embedding of the `BAD_EVALUATION_WINDOW` macro (chips.c line 52). -/
def BAD_EVALUATION_WINDOW (x_offset y_offset : Nat) : Bool :=
  (x_offset + y_offset) % 7 != 0

/-- Embedding of the reader's resampling loop (chips.c lines 215-219 and
226-230): `while (bad(x,y) || empty(x,y)) { x = rand_r(..) % gw; y =
rand_r(..) % gh; }`.  `empty` abstracts the `EMPTY_WINDOW` coverage query
(line 50) on chip-grid coordinates, `rnd` abstracts the per-worker
`rand_r` stream (one pair of draws per iteration), and `gw = width /
window_size`, `gh = height / window_size` are the chip-grid bounds.  The
loop is fuel-indexed; `none` means the fuel ran out before the loop
terminated. -/
def sampleLoop (bad empty : Nat → Nat → Bool) (gw gh : Nat)
    (rnd : Nat → Nat × Nat) : Nat → Nat × Nat → Option (Nat × Nat)
  | 0, p => if bad p.1 p.2 || empty p.1 p.2 then none else some p
  | fuel + 1, p =>
    if bad p.1 p.2 || empty p.1 p.2 then
      sampleLoop bad empty gw gh rnd fuel ((rnd fuel).1 % gw, (rnd fuel).2 % gh)
    else some p

/-- The training-mode sampling loop (chips.c lines 212-220): the loop is
entered with `x_offset = y_offset = 0` and filters with
`BAD_TRAINING_WINDOW`. -/
def readerSampleTraining (empty : Nat → Nat → Bool) (gw gh : Nat)
    (rnd : Nat → Nat × Nat) (fuel : Nat) : Option (Nat × Nat) :=
  sampleLoop BAD_TRAINING_WINDOW empty gw gh rnd fuel (0, 0)

/-- The evaluation-mode sampling loop (chips.c lines 221-231): the loop is
entered with `x_offset = 0`, `y_offset = 1` and filters with
`BAD_EVALUATION_WINDOW`. -/
def readerSampleEvaluation (empty : Nat → Nat → Bool) (gw gh : Nat)
    (rnd : Nat → Nat × Nat) (fuel : Nat) : Option (Nat × Nat) :=
  sampleLoop BAD_EVALUATION_WINDOW empty gw gh rnd fuel (0, 1)

/-- Embedding of the chip-grid-to-pixel conversion (chips.c lines 232-233):
`x_offset *= window_size; y_offset *= window_size;`. -/
def readerPixelOrigin (window_size : Nat) (c : Nat × Nat) : Nat × Nat :=
  (c.1 * window_size, c.2 * window_size)

/-! Reader slot search (chips.c lines 236-244). -/

/-- Outcome of one iteration of the reader's slot-search loop: whether the
trylock acquired the mutex, whether `pthread_mutex_unlock` was executed on
it in this iteration, and whether the worker jumped to `read_things`
holding the lock. -/
structure SlotSearchOutcome where
  acquired : Bool
  unlocked : Bool
  claimed : Bool
deriving DecidableEq

/-- Embedding of the body of the reader's slot-search loop (chips.c lines
238-243): `if ((pthread_mutex_trylock(&mutexes[slot]) == 0) &&
(ready[slot] == 0)) goto read_things; UNLOCK_CONTINUE(slot, 100);`.
`trylockOk` is the trylock result, `slotEmpty` is `ready[slot] == 0`.
When the conjunction fails the macro `UNLOCK_CONTINUE` (lines 44-48)
executes `pthread_mutex_unlock(&mutexes[slot])` unconditionally — also on
the short-circuited path where the trylock itself failed and the worker
does not hold the mutex. -/
def readerSlotSearchBody (trylockOk slotEmpty : Bool) : SlotSearchOutcome :=
  if trylockOk && slotEmpty then
    { acquired := true, unlocked := false, claimed := true }
  else
    { acquired := trylockOk, unlocked := true, claimed := false }

/-! Inference path (chips.c lines 121-158). -/

/-- Ambient state and backend oracles seen by `get_inference_chip`:
the relevant session globals, the `EMPTY_WINDOW` coverage oracle on
chip-grid coordinates, and for each attempt index whether the
`GDALDatasetRasterIO` call succeeds and which bytes it deposits. -/
structure InferenceEnv where
  operation_mode : Int
  window_size : Nat
  band_count : Nat
  imagery_data_type : Int
  emptyAt : Nat → Nat → Bool
  readOk : Nat → Bool
  readData : Nat → List Nat

/-- The retry loop of `get_inference_chip` (chips.c lines 134-150): attempt
indices `i, i+1, ...` for `k` more iterations, returning the first index
whose read succeeds. -/
def firstGoodAttempt (readOk : Nat → Bool) : Nat → Nat → Option Nat
  | 0, _ => none
  | k + 1, i => if readOk i then some i else firstGoodAttempt readOk k (i + 1)

/-- The `bad:` label of `get_inference_chip` (chips.c lines 152-154):
`memset(imagery_buffer, 0, word_size(imagery_data_type) * band_count *
window_size * window_size)`.  `none` if `word_size` hits its assert. -/
def zeroFilledBuffer (env : InferenceEnv) : Option (List Nat) :=
  (word_size env.imagery_data_type).map fun w =>
    List.replicate (w * env.band_count * env.window_size * env.window_size) 0

/-- Embedding of `get_inference_chip` (chips.c lines 121-158).  The result
is `none` when the call does not return normally (the divisions
`x / window_size`, `y / window_size` at lines 126-127 — executed before the
mode check at line 129 — divide by zero, or `word_size` asserts on the
`bad:` path); otherwise `some (r, buffer)` with `r` the C return value and
`buffer` the caller's imagery buffer contents on return. -/
def get_inference_chip (env : InferenceEnv) (x y : Nat) (attempts : Nat) :
    Option (Nat × List Nat) :=
  if env.window_size = 0 then none
  else if (env.operation_mode != 3) ||
      env.emptyAt (x / env.window_size) (y / env.window_size) then
    (zeroFilledBuffer env).map fun b => (0, b)
  else
    match firstGoodAttempt env.readOk attempts 0 with
    | some i => some (1, env.readData i)
    | none => (zeroFilledBuffer env).map fun b => (0, b)

/-! Consumer dequeue (chips.c lines 166-192). -/

/-- One ring slot as observed by `get_next`: the `ready` flag (`true` iff
`ready[slot] == 1`) and the current contents of its imagery and label
buffers. -/
structure Slot where
  ready : Bool
  imagery : List Nat
  label : List Nat
deriving DecidableEq

/-- Embedding of `get_next` (chips.c lines 166-192): scan slots starting at
cursor `current`, slot index `current % M`; on trylock failure, or on
`ready[slot] != 1` after unlocking, increment `current` and retry; on a
locked slot with `ready[slot] == 1`, copy the imagery buffer (and the
label buffer iff the caller passed a label buffer), set `ready[slot] = 0`,
unlock and return.  `trylockOk` gives the trylock outcome at each cursor
value (the cursor never repeats), `wantLabel` is `label_buffer != NULL`.
The result is `some (final cursor, updated slots, imagery copied, label
copied)`; `none` means the fuel ran out (the C loop blocks forever). -/
def get_next (trylockOk : Nat → Bool) (wantLabel : Bool) :
    Nat → Nat → List Slot → Option (Nat × List Slot × List Nat × Option (List Nat))
  | 0, _, _ => none
  | fuel + 1, current, slots =>
    if trylockOk current && (slots.getD (current % slots.length) ⟨false, [], []⟩).ready then
      some (current,
        slots.set (current % slots.length)
          { slots.getD (current % slots.length) ⟨false, [], []⟩ with ready := false },
        (slots.getD (current % slots.length) ⟨false, [], []⟩).imagery,
        if wantLabel then
          some (slots.getD (current % slots.length) ⟨false, [], []⟩).label
        else none)
    else
      get_next trylockOk wantLabel fuel (current + 1) slots

/-! Session state and the `start` / `stop` controller
(chips.c lines 9-32, 320-381, 386-425). -/

/-- The session globals of chips.c (lines 9-32).  Heap arrays are modelled
by `Option` values (`none` = the NULL pointer): `threads`,
`imagery_datasets`, `imagery_first_bands` and `mutexes` carry only their
allocated length, `label_datasets` carries for each worker whether its
label handle is non-NULL, `imagery_slots` and `label_slots` carry the byte
size malloc'd for each slot buffer, and `ready` carries the flag values. -/
structure SessionState where
  N : Nat
  M : Nat
  imagery_data_type : Int
  label_data_type : Int
  operation_mode : Int
  window_size : Nat
  band_count : Nat
  bands : Option (List Int)
  width : Nat
  height : Nat
  current : Nat
  threads : Option Nat
  imagery_datasets : Option Nat
  imagery_first_bands : Option Nat
  label_datasets : Option (List Bool)
  mutexes : Option Nat
  imagery_slots : Option (List Nat)
  label_slots : Option (List Nat)
  ready : Option (List Nat)
deriving DecidableEq

/-- The initial values of the globals (chips.c lines 9-32), before any call
of `start`: counters zero, data types `-1`, every pointer NULL. -/
def initState : SessionState :=
  { N := 0
    M := 0
    imagery_data_type := -1
    label_data_type := -1
    operation_mode := 0
    window_size := 0
    band_count := 0
    bands := none
    width := 0
    height := 0
    current := 0
    threads := none
    imagery_datasets := none
    imagery_first_bands := none
    label_datasets := none
    mutexes := none
    imagery_slots := none
    label_slots := none
    ready := none }

/-- The state written by a completed `start` call (chips.c lines 320-381),
given the byte widths `wi = word_size(imagery_dt)` and
`wl = word_size(label_dt)` used by the slot-allocation loop (lines
355-360).  `hasLabel` is `label_filename != NULL`; `rasterW`, `rasterH`
are the backend-reported dimensions of imagery dataset 0 (lines 344-345).
Note that `start` assigns every global except `current`, and allocates a
label buffer for every slot unconditionally (line 358), while the label
dataset handles (lines 368-375) are NULL iff no label filename was
given. -/
def startFields (s : SessionState) (n m : Nat) (hasLabel : Bool)
    (idt ldt mode : Int) (ws bc : Nat) (bandsArg : List Int)
    (rasterW rasterH : Nat) (wi wl : Nat) : SessionState :=
  { N := n
    M := m
    imagery_data_type := idt
    label_data_type := ldt
    operation_mode := mode
    window_size := ws
    band_count := bc
    bands := some (bandsArg.take bc)
    width := rasterW
    height := rasterH
    current := s.current
    threads := some n
    imagery_datasets := some n
    imagery_first_bands := some n
    label_datasets := some (List.replicate n hasLabel)
    mutexes := some m
    imagery_slots := some (List.replicate m (wi * bc * ws * ws))
    label_slots := some (List.replicate m (wl * 1 * ws * ws))
    ready := some (List.replicate m 0) }

/-- Embedding of `start` (chips.c lines 320-381).  The function performs no
validation of its arguments; the only abnormal exit is the `assert(0)`
inside `word_size`, reached from the slot-allocation loop (lines 355-360)
when `M >= 1` and a data type is unsupported, modelled as `none`.  With
`m = 0` the slot loop does not run and `word_size` is never called. -/
def start (s : SessionState) (n m : Nat) (hasLabel : Bool)
    (idt ldt mode : Int) (ws bc : Nat) (bandsArg : List Int)
    (rasterW rasterH : Nat) : Option SessionState :=
  if m = 0 then
    some (startFields s n m hasLabel idt ldt mode ws bc bandsArg rasterW rasterH 0 0)
  else
    match word_size idt, word_size ldt with
    | some wi, some wl =>
      some (startFields s n m hasLabel idt ldt mode ws bc bandsArg rasterW rasterH wi wl)
    | _, _ => none

/-- Embedding of `stop` (chips.c lines 386-425): sets `operation_mode = 0`,
joins and frees everything, sets `N = M = 0` and all pointers to NULL.
The globals `imagery_data_type`, `label_data_type`, `window_size`,
`band_count`, `width`, `height` and `current` are not touched. -/
def stop (s : SessionState) : SessionState :=
  { s with
    operation_mode := 0
    N := 0
    M := 0
    bands := none
    threads := none
    mutexes := none
    imagery_datasets := none
    imagery_first_bands := none
    label_datasets := none
    imagery_slots := none
    label_slots := none
    ready := none }

/-! Concrete fixtures used to instantiate the theorems below. -/

/-- A coverage oracle reporting every window non-empty. -/
def noEmpty : Nat → Nat → Bool := fun _ _ => false

/-- A read oracle on which every read fails. -/
def noRead : Nat → Bool := fun _ => false

/-- A read-data oracle returning an empty byte list. -/
def noData : Nat → List Nat := fun _ => []

/-- A random stream always drawing the pair `(1, 0)`. -/
def rndOneZero : Nat → Nat × Nat := fun _ => (1, 0)

/-- A random stream always drawing the pair `(0, 0)`. -/
def rndZeroZero : Nat → Nat × Nat := fun _ => (0, 0)

/-- A trylock oracle that always succeeds. -/
def trylockAlways : Nat → Bool := fun _ => true

/-- A concrete inference environment: Inference mode, window size 2, one
Byte band, full coverage, every read failing. -/
def envInferFail : InferenceEnv :=
  { operation_mode := 3
    window_size := 2
    band_count := 1
    imagery_data_type := GDT_Byte
    emptyAt := noEmpty
    readOk := noRead
    readData := noData }

/-- A concrete inference environment whose `window_size` is zero, as it is
before any session has ever been started. -/
def envInferZeroWs : InferenceEnv :=
  { operation_mode := 0
    window_size := 0
    band_count := 1
    imagery_data_type := GDT_Byte
    emptyAt := noEmpty
    readOk := noRead
    readData := noData }

/-- A concrete two-slot ring: slot 0 not ready, slot 1 ready. -/
def demoSlots : List Slot :=
  [{ ready := false, imagery := [1], label := [2] },
   { ready := true, imagery := [3], label := [4] }]

/-! Helper lemmas on the sampling loop. -/

/-- A value returned by the resampling loop falsifies both the partition
predicate and the coverage predicate (the loop only exits when the guard
`bad || empty` is false). -/
theorem sampleLoop_post (bad empty : Nat → Nat → Bool) (gw gh : Nat)
    (rnd : Nat → Nat × Nat) :
    ∀ fuel p q, sampleLoop bad empty gw gh rnd fuel p = some q →
      bad q.1 q.2 = false ∧ empty q.1 q.2 = false := by
  intro fuel
  induction fuel with
  | zero =>
    intro p q h
    unfold sampleLoop at h
    split at h
    · exact absurd h (by simp)
    · next hc =>
      cases h
      simpa [Bool.or_eq_true, not_or, Bool.not_eq_true] using hc
  | succ n ih =>
    intro p q h
    unfold sampleLoop at h
    split at h
    · exact ih _ _ h
    · next hc =>
      cases h
      simpa [Bool.or_eq_true, not_or, Bool.not_eq_true] using hc

/-- If the resampling loop starts inside the chip grid, it stays inside:
resampled coordinates are reduced mod `gw`, `gh`. -/
theorem sampleLoop_lt (bad empty : Nat → Nat → Bool) (gw gh : Nat)
    (rnd : Nat → Nat × Nat) (hgw : 0 < gw) (hgh : 0 < gh) :
    ∀ fuel p q, p.1 < gw → p.2 < gh →
      sampleLoop bad empty gw gh rnd fuel p = some q →
      q.1 < gw ∧ q.2 < gh := by
  intro fuel
  induction fuel with
  | zero =>
    intro p q h1 h2 h
    unfold sampleLoop at h
    split at h
    · exact absurd h (by simp)
    · cases h
      exact ⟨h1, h2⟩
  | succ n ih =>
    intro p q h1 h2 h
    unfold sampleLoop at h
    split at h
    · exact ih _ _ (Nat.mod_lt _ hgw) (Nat.mod_lt _ hgh) h
    · cases h
      exact ⟨h1, h2⟩

/-- If the loop's entry point already violates the guard (as both mode
loops' entry points do), every returned coordinate pair lies inside the
chip grid, because it necessarily came from a `rand_r mod` draw. -/
theorem sampleLoop_lt_of_bad (bad empty : Nat → Nat → Bool) (gw gh : Nat)
    (rnd : Nat → Nat × Nat) (hgw : 0 < gw) (hgh : 0 < gh)
    (fuel : Nat) (p q : Nat × Nat)
    (hbad : (bad p.1 p.2 || empty p.1 p.2) = true)
    (h : sampleLoop bad empty gw gh rnd fuel p = some q) :
    q.1 < gw ∧ q.2 < gh := by
  cases fuel with
  | zero =>
    unfold sampleLoop at h
    rw [if_pos hbad] at h
    exact absurd h (by simp)
  | succ n =>
    unfold sampleLoop at h
    rw [if_pos hbad] at h
    exact sampleLoop_lt bad empty gw gh rnd hgw hgh n _ _
      (Nat.mod_lt _ hgw) (Nat.mod_lt _ hgh) h

/-- C1: any window accepted by the training sampler has
`(cx+cy) mod 7 ≠ 0` and non-empty coverage, and any window accepted by
the evaluation sampler has `(cx+cy) mod 7 = 0` and non-empty coverage —
each implication standing on its own, for every coverage oracle, random
stream and fuel.  The worker resamples until the mode's partition
predicate and the non-empty-coverage predicate both hold (chips.c lines
212-231). -/
theorem C1_partition_of_delivered_chip
    (empty : Nat → Nat → Bool) (gw gh : Nat) (rnd : Nat → Nat × Nat)
    (fuel cx cy : Nat) :
    (readerSampleTraining empty gw gh rnd fuel = some (cx, cy) →
      (cx + cy) % 7 ≠ 0 ∧ empty cx cy = false) ∧
    (readerSampleEvaluation empty gw gh rnd fuel = some (cx, cy) →
      (cx + cy) % 7 = 0 ∧ empty cx cy = false) := by
  constructor
  · intro h
    have h1 := sampleLoop_post BAD_TRAINING_WINDOW empty gw gh rnd fuel _ _ h
    refine ⟨?_, h1.2⟩
    have := h1.1
    simpa [BAD_TRAINING_WINDOW] using this
  · intro h
    have h2 := sampleLoop_post BAD_EVALUATION_WINDOW empty gw gh rnd fuel _ _ h
    refine ⟨?_, h2.2⟩
    have := h2.1
    simpa [BAD_EVALUATION_WINDOW] using this

/-- Witness for C1: each mode's implication discharged at its own concrete
sampler run. -/
theorem C1_partition_witness :
    ((1 + 0) % 7 ≠ 0 ∧ noEmpty 1 0 = false) ∧
    ((0 + 0) % 7 = 0 ∧ noEmpty 0 0 = false) :=
  ⟨(C1_partition_of_delivered_chip noEmpty 3 3 rndOneZero 2 1 0).1 (by rfl),
   (C1_partition_of_delivered_chip noEmpty 3 3 rndZeroZero 2 0 0).2 (by rfl)⟩

/-- C2: the pixel origin of any window produced by either sampler is a
multiple of `window_size` on both axes and the window lies entirely inside
the raster: `x + window_size ≤ width`, `y + window_size ≤ height` (so
`x ≤ width - window_size`, `y ≤ height - window_size`, and partial tiles
at the right or bottom edge are never sampled).  Requires a non-degenerate
configuration `0 < window_size ≤ width, height`, without which the chip
grid `width / window_size` is empty and the C modulus divides by zero. -/
theorem C2_pixel_origin_bounds
    (ws width height : Nat) (hws : 0 < ws) (hw : ws ≤ width) (hh : ws ≤ height)
    (empty : Nat → Nat → Bool) (rnd : Nat → Nat × Nat) (fuel cx cy : Nat)
    (h : readerSampleTraining empty (width / ws) (height / ws) rnd fuel = some (cx, cy) ∨
         readerSampleEvaluation empty (width / ws) (height / ws) rnd fuel = some (cx, cy)) :
    (readerPixelOrigin ws (cx, cy)).1 % ws = 0 ∧
    (readerPixelOrigin ws (cx, cy)).2 % ws = 0 ∧
    (readerPixelOrigin ws (cx, cy)).1 + ws ≤ width ∧
    (readerPixelOrigin ws (cx, cy)).2 + ws ≤ height ∧
    (readerPixelOrigin ws (cx, cy)).1 ≤ width - ws ∧
    (readerPixelOrigin ws (cx, cy)).2 ≤ height - ws := by
  have hgw : 0 < width / ws := Nat.div_pos hw hws
  have hgh : 0 < height / ws := Nat.div_pos hh hws
  have hlt : cx < width / ws ∧ cy < height / ws := by
    rcases h with h | h
    · exact sampleLoop_lt_of_bad BAD_TRAINING_WINDOW empty _ _ rnd hgw hgh
        fuel (0, 0) (cx, cy) (by simp [BAD_TRAINING_WINDOW]) h
    · exact sampleLoop_lt_of_bad BAD_EVALUATION_WINDOW empty _ _ rnd hgw hgh
        fuel (0, 1) (cx, cy) (by simp [BAD_EVALUATION_WINDOW]) h
  have hx : cx * ws + ws ≤ width := by
    have h1 : (cx + 1) * ws ≤ (width / ws) * ws :=
      Nat.mul_le_mul_right ws (Nat.succ_le_of_lt hlt.1)
    have h2 : (width / ws) * ws ≤ width := Nat.div_mul_le_self width ws
    calc cx * ws + ws = (cx + 1) * ws := by ring
    _ ≤ (width / ws) * ws := h1
    _ ≤ width := h2
  have hy : cy * ws + ws ≤ height := by
    have h1 : (cy + 1) * ws ≤ (height / ws) * ws :=
      Nat.mul_le_mul_right ws (Nat.succ_le_of_lt hlt.2)
    have h2 : (height / ws) * ws ≤ height := Nat.div_mul_le_self height ws
    calc cy * ws + ws = (cy + 1) * ws := by ring
    _ ≤ (height / ws) * ws := h1
    _ ≤ height := h2
  refine ⟨Nat.mul_mod_left cx ws, Nat.mul_mod_left cy ws, hx, hy, ?_, ?_⟩
  · simp only [readerPixelOrigin]
    omega
  · simp only [readerPixelOrigin]
    omega

/-- Witness for C2 at a concrete training-sampler run on a 210x210 raster
with window size 10. -/
theorem C2_pixel_origin_witness :
    (readerPixelOrigin 10 (1, 0)).1 % 10 = 0 ∧
    (readerPixelOrigin 10 (1, 0)).2 % 10 = 0 ∧
    (readerPixelOrigin 10 (1, 0)).1 + 10 ≤ 210 ∧
    (readerPixelOrigin 10 (1, 0)).2 + 10 ≤ 210 ∧
    (readerPixelOrigin 10 (1, 0)).1 ≤ 210 - 10 ∧
    (readerPixelOrigin 10 (1, 0)).2 ≤ 210 - 10 :=
  C2_pixel_origin_bounds 10 210 210 (by decide) (by decide) (by decide)
    noEmpty rndOneZero 2 1 0 (Or.inl (by rfl))

/-! Helper lemmas on the inference retry loop. -/

/-- The retry loop returns `none` exactly when every read in its index
range fails. -/
theorem firstGoodAttempt_eq_none (readOk : Nat → Bool) :
    ∀ k j, firstGoodAttempt readOk k j = none ↔
      ∀ i, j ≤ i → i < j + k → readOk i = false := by
  intro k
  induction k with
  | zero =>
    intro j
    constructor
    · intro _ i h1 h2
      omega
    · intro _
      rfl
  | succ n ih =>
    intro j
    unfold firstGoodAttempt
    by_cases hr : readOk j = true
    · rw [if_pos hr]
      constructor
      · intro h
        exact absurd h (by simp)
      · intro h
        have := h j (le_refl j) (by omega)
        rw [hr] at this
        exact absurd this (by simp)
    · rw [if_neg hr]
      rw [ih (j + 1)]
      have hrf : readOk j = false := by
        revert hr
        cases readOk j <;> simp
      constructor
      · intro h i h1 h2
        rcases Nat.lt_or_ge j i with h3 | h3
        · exact h i (by omega) (by omega)
        · have : i = j := by omega
          rw [this, hrf]
      · intro h i h1 h2
        exact h i (by omega) (by omega)

/-- The retry loop returns `some i` only for a successful read index in its
range. -/
theorem firstGoodAttempt_eq_some (readOk : Nat → Bool) :
    ∀ k j i, firstGoodAttempt readOk k j = some i →
      readOk i = true ∧ j ≤ i ∧ i < j + k := by
  intro k
  induction k with
  | zero =>
    intro j i h
    exact absurd h (by simp [firstGoodAttempt])
  | succ n ih =>
    intro j i h
    unfold firstGoodAttempt at h
    by_cases hr : readOk j = true
    · rw [if_pos hr] at h
      cases h
      exact ⟨hr, le_refl j, by omega⟩
    · rw [if_neg hr] at h
      obtain ⟨h1, h2, h3⟩ := ih (j + 1) i h
      exact ⟨h1, by omega, by omega⟩

/-- C3: `get_inference_chip` returns failure (0) exactly when the mode is
not Inference (3), or the backend reports chip-grid cell
`(x / window_size, y / window_size)` entirely empty, or all `attempts`
reads fail (including `attempts = 0`); and on every failure the caller's
buffer holds exactly `word_size(imagery_dt) * band_count * window_size^2`
zero bytes (chips.c lines 121-158). -/
theorem C3_inference_failure_zero_fill
    (env : InferenceEnv) (x y attempts w : Nat)
    (hws : env.window_size ≠ 0)
    (hw : word_size env.imagery_data_type = some w) :
    ((get_inference_chip env x y attempts).map Prod.fst = some 0 ↔
      ((env.operation_mode != 3) = true ∨
        env.emptyAt (x / env.window_size) (y / env.window_size) = true ∨
        (List.range attempts).all (fun i => !env.readOk i) = true)) ∧
    ((get_inference_chip env x y attempts).map Prod.fst = some 0 →
      get_inference_chip env x y attempts =
        some (0, List.replicate
          (w * env.band_count * env.window_size * env.window_size) 0)) := by
  have hzf : zeroFilledBuffer env =
      some (List.replicate (w * env.band_count * env.window_size * env.window_size) 0) := by
    simp [zeroFilledBuffer, hw]
  have hall : ((List.range attempts).all (fun i => !env.readOk i) = true) ↔
      ∀ i, 0 ≤ i → i < 0 + attempts → env.readOk i = false := by
    simp only [List.all_eq_true, List.mem_range, Bool.not_eq_true']
    constructor
    · intro h i _ h2
      exact h i (by omega)
    · intro h i h2
      exact h i (by omega) (by omega)
  unfold get_inference_chip
  rw [if_neg hws]
  by_cases hc : ((env.operation_mode != 3) ||
      env.emptyAt (x / env.window_size) (y / env.window_size)) = true
  · rw [if_pos hc, hzf]
    refine ⟨⟨fun _ => ?_, fun _ => rfl⟩, fun _ => rfl⟩
    rcases Bool.or_eq_true _ _ |>.mp hc with h | h
    · exact Or.inl h
    · exact Or.inr (Or.inl h)
  · rw [if_neg hc]
    have hc1 : (env.operation_mode != 3) = false ∧
        env.emptyAt (x / env.window_size) (y / env.window_size) = false := by
      revert hc
      cases env.operation_mode != 3 <;>
        cases env.emptyAt (x / env.window_size) (y / env.window_size) <;> simp
    cases hfa : firstGoodAttempt env.readOk attempts 0 with
    | some i =>
      obtain ⟨hok, _, hlt⟩ := firstGoodAttempt_eq_some env.readOk attempts 0 i hfa
      constructor
      · constructor
        · intro h
          simp at h
        · intro h
          rcases h with h | h | h
          · rw [hc1.1] at h
            exact absurd h (by simp)
          · rw [hc1.2] at h
            exact absurd h (by simp)
          · have h2 := hall.mp h i (by omega) (by omega)
            rw [hok] at h2
            exact absurd h2 (by simp)
      · intro h
        simp at h
    | none =>
      rw [hzf]
      refine ⟨⟨fun _ => ?_, fun _ => rfl⟩, fun _ => rfl⟩
      exact Or.inr (Or.inr (hall.mpr
        ((firstGoodAttempt_eq_none env.readOk attempts 0).mp hfa)))

/-- Witness for C3: in the concrete failing environment with one attempt,
the failure equivalence holds. -/
theorem C3_inference_witness :
    (get_inference_chip envInferFail 0 0 1).map Prod.fst = some 0 ↔
      ((envInferFail.operation_mode != 3) = true ∨
        envInferFail.emptyAt (0 / envInferFail.window_size) (0 / envInferFail.window_size) = true ∨
        (List.range 1).all (fun i => !envInferFail.readOk i) = true) :=
  (C3_inference_failure_zero_fill envInferFail 0 0 1 1 (by decide) (by decide)).1

/-- C10: `get_inference_chip` evaluates `x / window_size` and
`y / window_size` (chips.c lines 126-127) before the mode test of line
129, so with `window_size = 0` the division by zero is reached and the
call does not return normally, whatever the session mode is. -/
theorem C10_division_before_mode_check
    (env : InferenceEnv) (mode : Int) (x y attempts : Nat)
    (h : env.window_size = 0) :
    get_inference_chip { env with operation_mode := mode } x y attempts = none := by
  simp [get_inference_chip, h]

/-- Witness for C10: a concrete zero-window-size environment crashes even
in Inference mode (3). -/
theorem C10_division_witness :
    get_inference_chip { envInferZeroWs with operation_mode := 3 } 5 5 2 = none :=
  C10_division_before_mode_check envInferZeroWs 3 5 5 2 (by rfl)

/-- C7: a successful `get_next` call returns at the first cursor value
`c ≥ current` whose trylock succeeds on a `ready = Full` slot; every
earlier cursor value was a miss (trylock failure or not-Full slot, after
which the cursor is incremented); the returned imagery is the slot's
imagery buffer, the label is copied iff the caller passed a label buffer,
and the slot's `ready` flag is cleared (chips.c lines 166-192). -/
theorem C7_get_next_scan (trylockOk : Nat → Bool) (wantLabel : Bool) :
    ∀ fuel c0 c slots slots' img lab,
      get_next trylockOk wantLabel fuel c0 slots = some (c, slots', img, lab) →
      c0 ≤ c ∧
      (∀ d, c0 ≤ d → d < c →
        (trylockOk d && (slots.getD (d % slots.length) ⟨false, [], []⟩).ready) = false) ∧
      (trylockOk c && (slots.getD (c % slots.length) ⟨false, [], []⟩).ready) = true ∧
      slots' = slots.set (c % slots.length)
        { slots.getD (c % slots.length) ⟨false, [], []⟩ with ready := false } ∧
      img = (slots.getD (c % slots.length) ⟨false, [], []⟩).imagery ∧
      lab = (if wantLabel then
        some (slots.getD (c % slots.length) ⟨false, [], []⟩).label else none) := by
  intro fuel
  induction fuel with
  | zero =>
    intro c0 c slots slots' img lab h
    exact absurd h (by simp [get_next])
  | succ n ih =>
    intro c0 c slots slots' img lab h
    unfold get_next at h
    by_cases hc : (trylockOk c0 &&
        (slots.getD (c0 % slots.length) ⟨false, [], []⟩).ready) = true
    · rw [if_pos hc] at h
      simp only [Option.some.injEq, Prod.mk.injEq] at h
      obtain ⟨h1, h2, h3, h4⟩ := h
      subst h1
      refine ⟨le_refl c0, ?_, hc, h2.symm, h3.symm, h4.symm⟩
      intro d hd1 hd2
      omega
    · rw [if_neg hc] at h
      have hcf : (trylockOk c0 &&
          (slots.getD (c0 % slots.length) ⟨false, [], []⟩).ready) = false := by
        revert hc
        cases trylockOk c0 &&
          (slots.getD (c0 % slots.length) ⟨false, [], []⟩).ready <;> simp
      obtain ⟨h1, h2, h3, h4, h5, h6⟩ := ih (c0 + 1) c slots slots' img lab h
      refine ⟨by omega, ?_, h3, h4, h5, h6⟩
      intro d hd1 hd2
      by_cases hd : d = c0
      · rw [hd]
        exact hcf
      · exact h2 d (by omega) hd2

/-- Witness for C7 on the concrete two-slot ring: the scan that starts at
cursor 0 succeeds at cursor 1 on the ready slot. -/
theorem C7_get_next_witness :
    (trylockAlways 1 && (demoSlots.getD (1 % demoSlots.length) ⟨false, [], []⟩).ready) = true ∧
    ([3] : List Nat) = (demoSlots.getD (1 % demoSlots.length) ⟨false, [], []⟩).imagery ∧
    (some [4] : Option (List Nat)) =
      (if true then some (demoSlots.getD (1 % demoSlots.length) ⟨false, [], []⟩).label
       else none) := by
  have h := C7_get_next_scan trylockAlways true 5 0 1 demoSlots
    (demoSlots.set (1 % demoSlots.length)
      { demoSlots.getD (1 % demoSlots.length) ⟨false, [], []⟩ with ready := false })
    [3] (some [4]) (by rfl)
  exact ⟨h.2.2.1, h.2.2.2.2.1, h.2.2.2.2.2⟩

/-! Helper lemma on `start`. -/

/-- A `start` call that returns wrote exactly the `startFields` state, for
some byte widths of the two data types. -/
theorem start_eq_some (s t : SessionState) (n m : Nat) (hasLabel : Bool)
    (idt ldt mode : Int) (ws bc : Nat) (bandsArg : List Int)
    (rasterW rasterH : Nat)
    (h : start s n m hasLabel idt ldt mode ws bc bandsArg rasterW rasterH = some t) :
    ∃ wi wl, t = startFields s n m hasLabel idt ldt mode ws bc bandsArg
      rasterW rasterH wi wl := by
  unfold start at h
  by_cases hm : m = 0
  · rw [if_pos hm] at h
    exact ⟨0, 0, (Option.some.inj h).symm⟩
  · rw [if_neg hm] at h
    cases hwi : word_size idt with
    | none =>
      rw [hwi] at h
      cases hwl : word_size ldt with
      | none =>
        rw [hwl] at h
        exact absurd h (by simp)
      | some wl =>
        rw [hwl] at h
        exact absurd h (by simp)
    | some wi =>
      rw [hwi] at h
      cases hwl : word_size ldt with
      | none =>
        rw [hwl] at h
        exact absurd h (by simp)
      | some wl =>
        rw [hwl] at h
        exact ⟨wi, wl, (Option.some.inj h).symm⟩

/-- C4 counterexample: `start` called with a bad mode code (99), zero
`window_size`, `N = 0` and `M = 0` does not refuse to start; it returns
normally having initialized the session, with `operation_mode = 99`. -/
theorem C4_counterexample_no_validation :
    (start initState 0 0 false GDT_Byte GDT_Byte 99 0 0 [] 0 0).isSome = true ∧
    ((start initState 0 0 false GDT_Byte GDT_Byte 99 0 0 [] 0 0).getD
        initState).operation_mode = 99 := by
  decide

/-- C4 amended: `start` performs no validation of the mode code,
`window_size`, `N` or `M`; the only abnormal exit is the `word_size`
assertion, hit exactly when `M ≥ 1` and the imagery or label data type is
unsupported (chips.c lines 320-381, 355-360). -/
theorem C4_amended_start_never_validates
    (s : SessionState) (n m : Nat) (hasLabel : Bool) (idt ldt mode : Int)
    (ws bc : Nat) (bandsArg : List Int) (rasterW rasterH : Nat) :
    start s n m hasLabel idt ldt mode ws bc bandsArg rasterW rasterH = none ↔
      (m ≠ 0 ∧ (word_size idt = none ∨ word_size ldt = none)) := by
  unfold start
  by_cases hm : m = 0
  · rw [if_pos hm]
    simp [hm]
  · rw [if_neg hm]
    cases hwi : word_size idt with
    | none =>
      cases hwl : word_size ldt with
      | none => simp [hm]
      | some wl => simp [hm]
    | some wi =>
      cases hwl : word_size ldt with
      | none => simp [hm]
      | some wl => simp [hm]

/-- C5 counterexample: one `start`/`stop` cycle does not restore the
pre-start state; for instance after `start` with `window_size = 10` and
`stop`, the globals `window_size`, `width`, `height`, `band_count` and the
data types keep their session values. -/
theorem C5_counterexample_stop_partial_reset :
    (start initState 2 4 true GDT_Byte GDT_Byte 1 10 1 [1] 210 210).map stop ≠
      some initState := by
  decide

/-- C5 amended: `stop` resets `mode`, `N`, `M` and every pointer to the
zero/null posture, but leaves `width`, `height`, `window_size`,
`band_count`, the data types and `current` at their last-`start` values
(chips.c lines 386-425 never write those globals); hence
`start; stop; start; stop` leaves the session state equal to
pre-first-start on the reset fields only, while the retained fields hold
the second `start`'s values (the cursor `current`, which no `start` or
`stop` writes, does return to its pre-first-start value 0). -/
theorem C5_amended_double_start_stop
    (n1 m1 : Nat) (hl1 : Bool) (idt1 ldt1 mode1 : Int) (ws1 bc1 : Nat)
    (b1 : List Int) (w1 h1 : Nat)
    (n2 m2 : Nat) (hl2 : Bool) (idt2 ldt2 mode2 : Int) (ws2 bc2 : Nat)
    (b2 : List Int) (w2 h2 : Nat) (s1 s2 : SessionState)
    (hs1 : start initState n1 m1 hl1 idt1 ldt1 mode1 ws1 bc1 b1 w1 h1 = some s1)
    (hs2 : start (stop s1) n2 m2 hl2 idt2 ldt2 mode2 ws2 bc2 b2 w2 h2 = some s2) :
    stop s2 = { initState with
      width := w2
      height := h2
      window_size := ws2
      band_count := bc2
      imagery_data_type := idt2
      label_data_type := ldt2 } := by
  obtain ⟨wi1, wl1, rfl⟩ :=
    start_eq_some initState s1 n1 m1 hl1 idt1 ldt1 mode1 ws1 bc1 b1 w1 h1 hs1
  obtain ⟨wi2, wl2, rfl⟩ := start_eq_some _ s2 n2 m2 hl2 idt2 ldt2 mode2 ws2 bc2 b2 w2 h2 hs2
  rfl

/-- Witness for C5 at two concrete `start`/`stop` cycles with different
parameters. -/
theorem C5_amended_witness :
    stop (startFields
        (stop (startFields initState 2 4 true GDT_Byte GDT_Byte 1 10 1 [1] 210 210 1 1))
        1 2 false GDT_Byte GDT_Byte 2 5 1 [1] 100 100 1 1) =
      { initState with
        width := 100
        height := 100
        window_size := 5
        band_count := 1
        imagery_data_type := GDT_Byte
        label_data_type := GDT_Byte } :=
  C5_amended_double_start_stop 2 4 true GDT_Byte GDT_Byte 1 10 1 [1] 210 210
    1 2 false GDT_Byte GDT_Byte 2 5 1 [1] 100 100 _ _ (by rfl) (by rfl)

/-- C9 counterexample: `start` with no label raster configured
(`label_filename = NULL`) still allocates a label buffer for every slot
(chips.c line 358 runs unconditionally); only the per-worker label dataset
handles are NULL. -/
theorem C9_counterexample_label_buffers_always :
    ((start initState 2 4 false GDT_Byte GDT_Byte 1 10 1 [1] 210 210).getD
        initState).label_slots = some (List.replicate 4 (1 * 1 * 10 * 10)) ∧
    ((start initState 2 4 false GDT_Byte GDT_Byte 1 10 1 [1] 210 210).getD
        initState).label_datasets = some [false, false] := by
  decide

/-- C9 amended: after `start` returns, each of the `M` slots has an imagery
buffer of `word_size(imagery_dt) * band_count * window_size^2` bytes and,
unconditionally — whether or not a label raster is configured — a label
buffer of `word_size(label_dt) * window_size^2` bytes; what depends on the
label path is only whether the per-worker label dataset handles are
non-NULL. -/
theorem C9_amended_slot_buffer_sizes
    (s t : SessionState) (n m : Nat) (hasLabel : Bool) (idt ldt mode : Int)
    (ws bc : Nat) (bandsArg : List Int) (rasterW rasterH : Nat) (wi wl : Nat)
    (hwi : word_size idt = some wi) (hwl : word_size ldt = some wl)
    (h : start s n m hasLabel idt ldt mode ws bc bandsArg rasterW rasterH = some t) :
    t.imagery_slots = some (List.replicate m (wi * bc * ws * ws)) ∧
    t.label_slots = some (List.replicate m (wl * 1 * ws * ws)) ∧
    t.label_datasets = some (List.replicate n hasLabel) := by
  unfold start at h
  by_cases hm : m = 0
  · rw [if_pos hm] at h
    have ht := Option.some.inj h
    subst hm
    rw [← ht]
    simp [startFields]
  · rw [if_neg hm, hwi, hwl] at h
    have ht := Option.some.inj h
    rw [← ht]
    exact ⟨rfl, rfl, rfl⟩

/-- Witness for C9 at a concrete `start` with no label raster. -/
theorem C9_amended_witness :
    (startFields initState 2 4 false GDT_Byte GDT_Byte 1 10 1 [1] 210 210 1 1).imagery_slots =
      some (List.replicate 4 (1 * 1 * 10 * 10)) ∧
    (startFields initState 2 4 false GDT_Byte GDT_Byte 1 10 1 [1] 210 210 1 1).label_slots =
      some (List.replicate 4 (1 * 1 * 10 * 10)) ∧
    (startFields initState 2 4 false GDT_Byte GDT_Byte 1 10 1 [1] 210 210 1 1).label_datasets =
      some (List.replicate 2 false) :=
  C9_amended_slot_buffer_sizes initState _ 2 4 false GDT_Byte GDT_Byte 1 10 1 [1]
    210 210 1 1 (by rfl) (by rfl) (by rfl)

/-- C6: the slot-search body contradicts the claim that a slot mutex is
unlocked only when the worker holds it.  When the trylock fails (slot
contended), the short-circuited conjunction falls through to
`UNLOCK_CONTINUE`, which still calls `pthread_mutex_unlock` on the slot's
mutex even though this worker never acquired it (first two conjuncts;
undefined behaviour for a default pthread mutex).  The third conjunct is
the one case in which the unlock is legitimate: trylock succeeded but the
slot was not Empty. -/
theorem C6_unlock_without_hold :
    readerSlotSearchBody false true =
      { acquired := false, unlocked := true, claimed := false } ∧
    readerSlotSearchBody false false =
      { acquired := false, unlocked := true, claimed := false } ∧
    readerSlotSearchBody true false =
      { acquired := true, unlocked := true, claimed := false } := by
  decide

/-- A data type in the supported list is accepted by the switch. -/
theorem word_size_isSome_of_mem (dt : Int) (h : dt ∈ supportedDataTypes) :
    word_size dt ≠ none := by
  unfold supportedDataTypes at h
  fin_cases h <;> decide

/-- A data type outside the supported list falls through every case of the
switch into the `assert(0)` default. -/
theorem word_size_none_of_not_mem (dt : Int) (h : dt ∉ supportedDataTypes) :
    word_size dt = none := by
  have hn : dt ≠ GDT_Byte ∧ dt ≠ GDT_UInt16 ∧ dt ≠ GDT_Int16 ∧ dt ≠ GDT_UInt32 ∧
      dt ≠ GDT_Int32 ∧ dt ≠ GDT_Float32 ∧ dt ≠ GDT_Float64 ∧ dt ≠ GDT_CInt16 ∧
      dt ≠ GDT_CInt32 ∧ dt ≠ GDT_CFloat32 ∧ dt ≠ GDT_CFloat64 := by
    simpa [supportedDataTypes, not_or] using h
  obtain ⟨n1, n2, n3, n4, n5, n6, n7, n8, n9, n10, n11⟩ := hn
  simp [word_size, n1, n2, n3, n4, n5, n6, n7, n8, n9, n10, n11]

/-- C8: `word_size` maps Byte to 1, UInt16 and Int16 to 2, UInt32, Int32
and Float32 to 4, Float64 to 8, CInt16 to 4, CInt32 to 8, CFloat32 to 8,
CFloat64 to 16, and returns abnormally (`assert(0)`, modelled `none`)
exactly on the data types outside this table. -/
theorem C8_word_size_table :
    word_size GDT_Byte = some 1 ∧ word_size GDT_UInt16 = some 2 ∧
    word_size GDT_Int16 = some 2 ∧ word_size GDT_UInt32 = some 4 ∧
    word_size GDT_Int32 = some 4 ∧ word_size GDT_Float32 = some 4 ∧
    word_size GDT_Float64 = some 8 ∧ word_size GDT_CInt16 = some 4 ∧
    word_size GDT_CInt32 = some 8 ∧ word_size GDT_CFloat32 = some 8 ∧
    word_size GDT_CFloat64 = some 16 ∧
    ∀ dt : Int, word_size dt = none ↔ dt ∉ supportedDataTypes := by
  refine ⟨by decide, by decide, by decide, by decide, by decide, by decide,
    by decide, by decide, by decide, by decide, by decide, ?_⟩
  intro dt
  constructor
  · intro hn hmem
    exact word_size_isSome_of_mem dt hmem hn
  · exact word_size_none_of_not_mem dt

end Libchips
